import Mathlib

/-!
Verification of the `db` adapter layer (sqlite and postgresql dialects).

Shallow embedding of `src/sqlite/database.go` and `src/postgresql/database.go`.
Machine integers (`int32`, `int`) are modelled as `Int`; the outcome of native
driver calls (`sql.Open`, `Begin`, `BaseDatabase.Close`) is passed in as an
oracle argument, since the drivers are external collaborators.
-/


/-- `maxOpenFiles` from src/sqlite/database.go: the artificial cap on
simultaneously open sqlite files. -/
def maxOpenFiles : Int := 100

/-- Errors that the sqlite `openFn` closure can produce: the sentinel
`errTooManyOpenFiles` value, or whatever native error `sql.Open` returned
(modelled by its message). -/
inductive OpenErr where
  | tooManyOpenFiles
  | native (msg : String)
deriving DecidableEq

/-- Result of one call to the sqlite `openFn` closure: the returned error (if
any), the value of the shared `fileOpenCount` counter afterwards, and whether
the native `sql.Open` call was invoked. -/
structure OpenFnResult where
  err : Option OpenErr
  counter : Int
  nativeInvoked : Bool
deriving DecidableEq

/-- The sqlite `openFn` closure (src/sqlite/database.go lines 81-95): reads the
shared counter; below `maxOpenFiles` it invokes the native `sql.Open` and
increments the counter only when that succeeds; otherwise it returns
`errTooManyOpenFiles` without invoking the native open. `nativeResult` is the
oracle for the native call: `none` means success, `some m` a native error. -/
def sqliteOpenFn (counter : Int) (nativeResult : Option String) : OpenFnResult :=
  if counter < maxOpenFiles then
    match nativeResult with
    | none => ⟨none, counter + 1, true⟩
    | some m => ⟨some (.native m), counter, true⟩
  else
    ⟨some .tooManyOpenFiles, counter, false⟩

/-- Errors the sqlite `Close` method can return: the consistency-violation
error `Close() without Open()?`, or an error from `BaseDatabase.Close`. -/
inductive CloseErr where
  | closeWithoutOpen
  | base (msg : String)
deriving DecidableEq

/-- Result of one call to sqlite `Close`: the returned error and the value of
the shared counter afterwards. -/
structure CloseResult where
  err : Option CloseErr
  counter : Int
deriving DecidableEq

/-- The sqlite `Close` method (src/sqlite/database.go lines 110-118): when the
session is non-nil it decrements the shared counter first and returns the
consistency-violation error if the decremented value is negative; otherwise it
delegates to `BaseDatabase.Close` (oracle `baseCloseErr`). With a nil session
it is a no-op. -/
def sqliteClose (sessionNonNil : Bool) (baseCloseErr : Option String)
    (counter : Int) : CloseResult :=
  if sessionNonNil then
    if counter - 1 < 0 then
      ⟨some .closeWithoutOpen, counter - 1⟩
    else
      ⟨baseCloseErr.map .base, counter - 1⟩
  else
    ⟨none, counter⟩

/-- One event acting on the shared `fileOpenCount` counter: an open attempt
(with the native-open oracle) or a close (with the session-non-nil flag and
the `BaseDatabase.Close` oracle). -/
inductive GuardEvent where
  | openEv (nativeResult : Option String)
  | closeEv (sessionNonNil : Bool) (baseCloseErr : Option String)
deriving DecidableEq

/-- Counter value after one guard event. -/
def guardStep (counter : Int) : GuardEvent → Int
  | .openEv r => (sqliteOpenFn counter r).counter
  | .closeEv s b => (sqliteClose s b counter).counter

/-- Counter value after a sequence of guard events. -/
def runGuard (counter : Int) : List GuardEvent → Int
  | [] => counter
  | e :: es => runGuard (guardStep counter e) es

/-- A sequence of guard events is well matched from a starting counter when
every close that actually touches the counter (session non-nil) happens while
the running counter is positive, i.e. every close has a prior matching
successful open. -/
def closesMatched : Int → List GuardEvent → Bool
  | _, [] => true
  | c, e :: es =>
    (match e with
     | .closeEv true _ => decide (0 < c)
     | _ => true) && closesMatched (guardStep c e) es

/-- Errors that the postgresql `Open` method can return: the missing-URL
sentinel `db.ErrMissingConnURL`, or the native `sql.Open` error. -/
inductive PgOpenErr where
  | missingConnURL
  | native (msg : String)
deriving DecidableEq

/-- Result of the postgresql `Open` method: the returned error (if any) and
whether the native `sql.Open` call was attempted. -/
structure PgOpenResult where
  err : Option PgOpenErr
  nativeAttempted : Bool
deriving DecidableEq

/-- The postgresql `Open` method (src/postgresql/database.go lines 88-96):
rejects a nil connection descriptor with `db.ErrMissingConnURL` before doing
anything else; otherwise builds the runtime and performs the native open
(oracle `nativeResult`: `none` is success). -/
def pgOpen (connURL : Option String) (nativeResult : Option String) :
    PgOpenResult :=
  match connURL with
  | none => ⟨some .missingConnURL, false⟩
  | some _ =>
    match nativeResult with
    | none => ⟨none, true⟩
    | some m => ⟨some (.native m), true⟩

/-- Result of the sqlite `Open` method: error, shared counter afterwards, and
whether the native `sql.Open` call was attempted. -/
structure SqliteOpenResult where
  err : Option OpenErr
  counter : Int
  nativeAttempted : Bool
deriving DecidableEq

/-- The sqlite `Open` method (src/sqlite/database.go lines 105-108): builds
the runtime and goes straight into `open` with no nil-descriptor check; the
descriptor is consumed only as the argument to the native `sql.Open`, whose
outcome the `nativeResult` oracle models. -/
def sqliteOpen (connURL : Option String) (counter : Int)
    (nativeResult : Option String) : SqliteOpenResult :=
  let r := sqliteOpenFn counter nativeResult
  ⟨r.err, r.counter, r.nativeInvoked⟩

/-- Decimal digits of `n` as a list of codepoints (`strconv.Itoa`). -/
def itoaDigits (n : Nat) : List Nat := (Nat.toDigits 10 n).map Char.toNat

/-- The first byte of the UTF-8 encoding of codepoint `c`. In Go,
`for i := range buf` iterates over the byte indices of rune starts, and
`buf[i]` reads only the first byte of the rune at that position. -/
def utf8FirstByte (c : Nat) : Nat :=
  if c < 128 then c
  else if c < 2048 then 192 + c / 64
  else if c < 65536 then 224 + c / 4096
  else 240 + c / 262144

/-- The postgresql `CompileAndReplacePlaceholders` rewrite loop
(src/postgresql/database.go lines 48-56), on the compiled text as a list of
codepoints: a `?` (codepoint 63) becomes `$` (codepoint 36) followed by the
decimal digits of the running 1-based counter `j`; any other rune is rebuilt
from its first UTF-8 byte via `string(buf[i])`. -/
def pgReplacePlaceholders : List Nat → Nat → List Nat
  | [], _ => []
  | c :: cs, j =>
    if c = 63 then (36 :: itoaDigits j) ++ pgReplacePlaceholders cs (j + 1)
    else utf8FirstByte c :: pgReplacePlaceholders cs j

/-- postgresql `CompileAndReplacePlaceholders` applied to the compiled
statement text: the rewrite loop with the counter starting at 1. -/
def pgCompileAndReplacePlaceholders (compiled : List Nat) : List Nat :=
  pgReplacePlaceholders compiled 1

/-- sqlite `CompileAndReplacePlaceholders` (src/sqlite/database.go lines
64-66): returns the compiled statement text unchanged. -/
def sqliteCompileAndReplacePlaceholders (compiled : List Nat) : List Nat :=
  compiled

/-- A text with N placeholders, given as its N+1 placeholder-free segments
joined by `?` (codepoint 63). -/
def joinWithQuestionMarks : List (List Nat) → List Nat
  | [] => []
  | [s] => s
  | s :: ss => s ++ 63 :: joinWithQuestionMarks ss

/-- The same segments joined by the dialect parameter tokens `$j`, `$(j+1)`,
…, numbering left to right. -/
def joinWithDollarTokens : Nat → List (List Nat) → List Nat
  | _, [] => []
  | _, [s] => s
  | j, s :: ss => s ++ (36 :: itoaDigits j) ++ joinWithDollarTokens (j + 1) ss

/-- The native error values seen by the dialects' `Err` translators: the
distinguished `errTooManyOpenFiles` value of the sqlite adapter (compared by
identity in Go, so a distinct error with equal text does not match), or any
other error carrying its message text. -/
inductive NativeErr where
  | sentinelTooManyOpenFiles
  | mk (msg : String)
deriving DecidableEq

/-- The message text of a native error (`err.Error()` in Go). -/
def NativeErr.message : NativeErr → String
  | .sentinelTooManyOpenFiles => "Too many open database files."
  | .mk s => s

/-- Outcome of an `Err` translation: nil in and nil out, the shared
`db.ErrTooManyClients` kind, or the original error passed through. -/
inductive ErrResult where
  | ok
  | tooManyClients
  | passthrough (e : NativeErr)
deriving DecidableEq

/-- Does `pat` lead the character list `s` (match at the front)? -/
def charsLeads : List Char → List Char → Bool
  | [], _ => true
  | _ :: _, [] => false
  | a :: as, b :: bs => a == b && charsLeads as bs

/-- Does `pat` occur contiguously anywhere inside `s`? -/
def charsOccurs (pat : List Char) : List Char → Bool
  | [] => pat.isEmpty
  | c :: rest => charsLeads pat (c :: rest) || charsOccurs pat rest

/-- `strings.Contains(s, pat)`. -/
def strContains (s pat : String) : Bool := charsOccurs pat.toList s.toList

/-- sqlite `Err` (src/sqlite/database.go lines 69-76): maps the
`errTooManyOpenFiles` value to `db.ErrTooManyClients` and passes every other
error, including nil, through unchanged. -/
def sqliteErrFn : Option NativeErr → ErrResult
  | none => .ok
  | some e =>
    if e = .sentinelTooManyOpenFiles then .tooManyClients else .passthrough e

/-- postgresql `Err` (src/postgresql/database.go lines 62-70): maps any error
whose text contains "too many clients" or "remaining connection slots are
reserved" to `db.ErrTooManyClients`, and passes every other error, including
nil, through unchanged. -/
def pgErrFn : Option NativeErr → ErrResult
  | none => .ok
  | some e =>
    if strContains e.message "too many clients"
        || strContains e.message "remaining connection slots are reserved"
    then .tooManyClients
    else .passthrough e

/-- A row of `PRAGMA TABLE_INFO` as scanned into `columnSchemaT`
(src/sqlite/database.go lines 48-51): column name and pk ordinal (0 means
not part of the primary key, ≥ 1 is the composite-key position). Rows arrive
in the pragma's order, which is column-definition order. -/
structure ColumnSchemaT where
  name : String
  pk : Int
deriving DecidableEq

/-- The discovery pass of sqlite `TablePrimaryKey` (src/sqlite/database.go
lines 238-252): compute the maximum positive pk ordinal over the pragma
rows; when one exists, collect the names of all columns with pk > 0 in
pragma row order; otherwise return the empty list. -/
def sqliteDiscoverPk (columns : List ColumnSchemaT) : List String :=
  let maxValue := columns.foldl
    (fun m c => if c.pk > 0 ∧ c.pk > m then c.pk else m) (-1)
  if maxValue > 0 then
    (columns.filter (fun c => decide (c.pk > 0))).map (·.name)
  else []

/-- The discovery query of postgresql `TablePrimaryKey`
(src/postgresql/database.go lines 203-222): the catalog join yields the key
columns' names and the query ends in `ORDER BY "pkey"`; the backend's ORDER
BY on that name column is modelled as a lexicographic sort. -/
def pgDiscoverPk (attnames : List String) : List String :=
  attnames.insertionSort (· ≤ ·)

/-- The ordering the claim asserts for the sqlite dialect, stated from the
spec's words for comparison: key columns sorted by their pk ordinal from the
table-info pragma. -/
def sqlitePkByOrdinalSpec (columns : List ColumnSchemaT) : List String :=
  ((columns.filter (fun c => decide (c.pk > 0))).insertionSort
    (fun a b => a.pk ≤ b.pk)).map (·.name)

/-- Modelled from the spec: the Table Schema primary-key slot of the shared
sqladapter runtime, whose `PrimaryKeys`/`SetPrimaryKeys` accessors are not
under src/ — "empty slice means no primary key, nil/unset means not yet
discovered". `none` models the Go nil slice returned before discovery;
`SetPrimaryKeys` stores a possibly empty non-nil slice, modelled `some`.
This record is the observable outcome of one `TablePrimaryKey` call: the
returned list, the cache slot afterwards, and whether the catalog discovery
query was issued. -/
structure TablePkCall where
  pk : List String
  cache : Option (List String)
  queried : Bool
deriving DecidableEq

/-- sqlite `TablePrimaryKey` (src/sqlite/database.go lines 211-257) against
the pk cache: a non-nil cached value is returned without querying; on a nil
cache the pragma discovery runs, the result (even when empty) is stored and
returned. -/
def sqliteTablePrimaryKey (cache : Option (List String))
    (pragmaRows : List ColumnSchemaT) : TablePkCall :=
  match cache with
  | some pk => ⟨pk, some pk, false⟩
  | none => ⟨sqliteDiscoverPk pragmaRows, some (sqliteDiscoverPk pragmaRows), true⟩

/-- postgresql `TablePrimaryKey` (src/postgresql/database.go lines 193-227)
against the pk cache, with the catalog's key-column names as input. -/
def pgTablePrimaryKey (cache : Option (List String))
    (attnames : List String) : TablePkCall :=
  match cache with
  | some pk => ⟨pk, some pk, false⟩
  | none => ⟨pgDiscoverPk attnames, some (pgDiscoverPk attnames), true⟩

/-- A row of the `sqlite_master` catalog: object type and table name. -/
structure SqliteMasterRow where
  type : String
  tbl_name : String
deriving DecidableEq

/-- sqlite `Collections` (src/sqlite/database.go lines 132-149): the names
returned by `SELECT tbl_name FROM sqlite_master WHERE type = 'table'`,
modelled as the catalog filter the backend evaluates. -/
def sqliteCollections (master : List SqliteMasterRow) : List String :=
  (master.filter (fun r => r.type == "table")).map (·.tbl_name)

/-- A row of the `information_schema.tables` view: catalog (database) name,
schema name and table name. -/
structure InformationSchemaTablesRow where
  table_catalog : String
  table_schema : String
  table_name : String
deriving DecidableEq

/-- postgresql `Collections` (src/postgresql/database.go lines 110-127): the
names returned by `SELECT table_name FROM information_schema.tables WHERE
table_schema = 'public'`. -/
def pgCollections (tables : List InformationSchemaTablesRow) : List String :=
  (tables.filter (fun r => r.table_schema == "public")).map (·.table_name)

/-- Outcome of `TableExists`: nil, the distinguished
`db.ErrCollectionDoesNotExist`, or a propagated `iter.Scan` error. -/
inductive ExistsResult where
  | ok
  | collectionDoesNotExist
  | scanError (msg : String)
deriving DecidableEq

/-- sqlite `TableExists` (src/sqlite/database.go lines 192-208): queries
`sqlite_master` with `type = 'table' AND tbl_name = ?`, then branches only
on `iter.Next()`: when a row arrives, a `Scan` failure (oracle `scanErr`) is
returned and otherwise nil; when no row arrives — because no catalog row
matches, or because the query itself failed (`queryFails` oracle: the
iterator delivers no rows and its pending error is never checked, as
`iter.Err()` is not consulted) — it returns
`db.ErrCollectionDoesNotExist`. -/
def sqliteTableExists (master : List SqliteMasterRow) (name : String)
    (queryFails : Bool) (scanErr : Option String) : ExistsResult :=
  if !queryFails
      && master.any (fun r => r.type == "table" && r.tbl_name == name) then
    match scanErr with
    | some m => .scanError m
    | none => .ok
  else .collectionDoesNotExist

/-- postgresql `TableExists` (src/postgresql/database.go lines 174-190):
queries `information_schema.tables` with `table_catalog = ? AND table_name
= ?`; the same `iter.Next()`-only branching as the sqlite dialect, with the
same `queryFails` and `scanErr` oracles for the two native failure modes. -/
def pgTableExists (tables : List InformationSchemaTablesRow)
    (cat name : String) (queryFails : Bool) (scanErr : Option String) :
    ExistsResult :=
  if !queryFails
      && tables.any (fun r => r.table_catalog == cat && r.table_name == name)
  then
    match scanErr with
    | some m => .scanError m
    | none => .ok
  else .collectionDoesNotExist

/-- Modelled from the spec: the per-adapter state held by the shared
sqladapter runtime (`BaseDatabase`, not under src/): the live low-level
session handle installed by `Bind` and the transactional handle installed by
`BindTx`. Native handles are modelled as allocation numbers. -/
structure AdapterState where
  sessionId : Option Nat
  txId : Option Nat
deriving DecidableEq

/-- Modelled from the spec: the mutable world the transaction machinery acts
on — a heap of adapters addressed by identity (Go pointers modelled as
allocation numbers), fresh-identity and fresh-handle counters, and the
shared sqlite `fileOpenCount`. -/
structure TxWorld where
  heap : List (Nat × AdapterState)
  nextId : Nat
  nextHandle : Nat
  count : Int
deriving DecidableEq

/-- Look up an adapter by identity (first matching heap entry). -/
def lookupAd : List (Nat × AdapterState) → Nat → Option AdapterState
  | [], _ => none
  | p :: rest, i => if p.1 = i then some p.2 else lookupAd rest i

/-- Overwrite the state of the adapter with identity `i`. -/
def updateAd : List (Nat × AdapterState) → Nat → AdapterState →
    List (Nat × AdapterState)
  | [], _, _ => []
  | p :: rest, i, s => (if p.1 = i then (i, s) else p) :: updateAd rest i s

/-- Errors of the transaction path: guard denial, native open failure, or
`Begin` failure. -/
inductive TxErr where
  | tooManyOpenFiles
  | nativeOpenFailed
  | beginFailed
deriving DecidableEq

/-- The sqlite `open` procedure run on adapter `aid` (the guard-gated
`openFn` of src/sqlite/database.go lines 78-102 followed by the runtime's
`Bind`): below the cap, on native success, it binds a fresh session handle
to `aid` and increments the shared counter; any failure returns the error
with the world unchanged. -/
def sqliteOpenOn (w : TxWorld) (aid : Nat) (nativeOk : Bool) :
    Except (TxErr × TxWorld) TxWorld :=
  if w.count < maxOpenFiles then
    if nativeOk then
      .ok ⟨updateAd w.heap aid ⟨some w.nextHandle, none⟩,
           w.nextId, w.nextHandle + 1, w.count + 1⟩
    else .error (.nativeOpenFailed, w)
  else .error (.tooManyOpenFiles, w)

/-- The postgresql `open` procedure run on adapter `aid`
(src/postgresql/database.go lines 72-85 followed by `Bind`): as for sqlite
but with no admission cap and no shared counter. -/
def pgOpenOn (w : TxWorld) (aid : Nat) (nativeOk : Bool) :
    Except (TxErr × TxWorld) TxWorld :=
  if nativeOk then
    .ok ⟨updateAd w.heap aid ⟨some w.nextHandle, none⟩,
         w.nextId, w.nextHandle + 1, w.count⟩
  else .error (.nativeOpenFailed, w)

/-- `clone` (src/sqlite/database.go lines 259-266, src/postgresql/database.go
lines 229-236): allocate a fresh adapter sharing the descriptor, then run
the dialect's open procedure on it. On open failure the freshly allocated,
still unopened adapter stays in the world (as in Go) but is not returned. -/
def cloneOn
    (openOn : TxWorld → Nat → Bool → Except (TxErr × TxWorld) TxWorld)
    (w : TxWorld) (nativeOk : Bool) :
    Except (TxErr × TxWorld) (TxWorld × Nat) :=
  let cid := w.nextId
  let w1 : TxWorld :=
    ⟨(cid, ⟨none, none⟩) :: w.heap, w.nextId + 1, w.nextHandle, w.count⟩
  match openOn w1 cid nativeOk with
  | .ok w2 => .ok (w2, cid)
  | .error e => .error e

/-- `BindTx` on the clone (modelled from the spec: the runtime installs the
freshly begun transactional handle on the adapter `cid`). -/
def bindTxTo (w1 : TxWorld) (cid : Nat) : TxWorld :=
  match lookupAd w1.heap cid with
  | some s =>
    ⟨updateAd w1.heap cid ⟨s.sessionId, some w1.nextHandle⟩,
      w1.nextId, w1.nextHandle + 1, w1.count⟩
  | none => w1

/-- `Transaction()` (src/sqlite/database.go lines 153-174,
src/postgresql/database.go lines 131-152) as a step on the world: clone the
adapter `d`, begin a transaction on the clone's own session (`beginOk` is
the oracle for `Begin`), bind the transactional handle to the clone via
`BindTx`, and return the clone as the transaction-scoped adapter. On `Begin`
failure the opened clone stays in the world (it is leaked, as in Go). -/
def transactionOn
    (openOn : TxWorld → Nat → Bool → Except (TxErr × TxWorld) TxWorld)
    (w : TxWorld) (d : Nat) (nativeOk beginOk : Bool) :
    Except (TxErr × TxWorld) (TxWorld × Nat) :=
  match cloneOn openOn w nativeOk with
  | .error e => .error e
  | .ok (w1, cid) =>
    if beginOk then .ok (bindTxTo w1 cid, cid)
    else .error (.beginFailed, w1)

/-- sqlite `Transaction` on the world model. -/
def sqliteTransaction (w : TxWorld) (d : Nat) (nativeOk beginOk : Bool) :
    Except (TxErr × TxWorld) (TxWorld × Nat) :=
  transactionOn sqliteOpenOn w d nativeOk beginOk

/-- postgresql `Transaction` on the world model. -/
def pgTransaction (w : TxWorld) (d : Nat) (nativeOk beginOk : Bool) :
    Except (TxErr × TxWorld) (TxWorld × Nat) :=
  transactionOn pgOpenOn w d nativeOk beginOk

/-- The frame contract of a dialect open procedure: on success it rebinds
exactly the requested adapter to a fresh session handle and bumps the handle
counter without renumbering identities; on failure it returns the world
unchanged. -/
def OpenOnFrames
    (openOn : TxWorld → Nat → Bool → Except (TxErr × TxWorld) TxWorld) :
    Prop :=
  ∀ w aid b,
    (∀ w2, openOn w aid b = .ok w2 →
      w2.heap = updateAd w.heap aid ⟨some w.nextHandle, none⟩
        ∧ w2.nextId = w.nextId ∧ w2.nextHandle = w.nextHandle + 1)
    ∧ (∀ e w2, openOn w aid b = .error (e, w2) → w2 = w)

/-- Helper: one guard event keeps the counter non-negative provided a
session-close only happens while the counter is positive. -/
theorem guardStep_nonneg (c : Int) (e : GuardEvent) (h0 : 0 ≤ c)
    (h : (match e with | .closeEv true _ => decide (0 < c) | _ => true) = true) :
    0 ≤ guardStep c e := by
  cases e with
  | openEv r =>
    simp only [guardStep, sqliteOpenFn]
    split
    · cases r <;> simp <;> omega
    · simpa
  | closeEv s b =>
    cases s with
    | true =>
      simp only [decide_eq_true_eq] at h
      simp only [guardStep, sqliteClose, if_true]
      split <;> simp <;> omega
    | false => simpa [guardStep, sqliteClose]

/-- Helper: along a well-matched event sequence the counter stays
non-negative at every intermediate point. -/
theorem runGuard_nonneg (p : List GuardEvent) (t : List GuardEvent)
    (counter : Int) (h0 : 0 ≤ counter)
    (hm : closesMatched counter (p ++ t) = true) : 0 ≤ runGuard counter p := by
  induction p generalizing counter with
  | nil => simpa [runGuard]
  | cons e p ih =>
    rw [List.cons_append] at hm
    simp only [closesMatched, Bool.and_eq_true] at hm
    exact ih (guardStep counter e) (guardStep_nonneg counter e h0 hm.1) hm.2

/-- C1 (counterexample): at counter 0 — no prior matching open — a `Close`
with a live session returns the consistency-violation error but decrements
the shared counter to -1, so the counter does go negative, contrary to the
claim that it is left non-negative. -/
theorem guard_close_without_open_goes_negative :
    (sqliteClose true none 0).err = some .closeWithoutOpen ∧
      (sqliteClose true none 0).counter = -1 ∧
      runGuard 0 [.closeEv true none] < 0 := by decide

/-- C1 (amended): starting from a non-negative counter, for every sequence of
opens and closes in which each session-close has a prior matching successful
open (running counter positive), the shared `fileOpenCount` counter never
goes negative at any point; a `Close` with no prior matching open returns the
consistency-violation error `Close() without Open()?` but leaves the counter
negative (decremented to -1 from 0). -/
theorem guard_counter_invariant (counter : Int) (es : List GuardEvent)
    (h0 : 0 ≤ counter) (hm : closesMatched counter es = true) :
    (∀ p, p <+: es → 0 ≤ runGuard counter p)
    ∧ (∀ b, (sqliteClose true b 0).err = some .closeWithoutOpen ∧
        (sqliteClose true b 0).counter = -1) := by
  constructor
  · intro p hp
    obtain ⟨t, rfl⟩ := hp
    exact runGuard_nonneg p t counter h0 hm
  · intro b
    constructor <;> simp [sqliteClose]

/-- C1 witness: the amended invariant applied to the concrete well-matched
sequence open-then-close from counter 0. -/
theorem guard_counter_invariant_witness :
    0 ≤ runGuard 0 [GuardEvent.openEv none, GuardEvent.closeEv true none] :=
  (guard_counter_invariant 0 [.openEv none, .closeEv true none] (by decide)
    (by decide)).1 _ ⟨[], rfl⟩

/-- C2: once the shared counter has reached `maxOpenFiles` (100), an open
attempt returns `errTooManyOpenFiles` without invoking the native `sql.Open`
and without touching the counter; below the cap the native open is always
invoked and the counter is incremented exactly when it succeeds; after one
close from the cap (counter 99) the next open attempt performs the native
open. -/
theorem admission_control :
    (∀ c r, maxOpenFiles ≤ c →
      sqliteOpenFn c r = ⟨some .tooManyOpenFiles, c, false⟩)
    ∧ (∀ c r, c < maxOpenFiles →
        (sqliteOpenFn c r).nativeInvoked = true
        ∧ (sqliteOpenFn c r).counter = (if r = none then c + 1 else c))
    ∧ ((sqliteClose true none maxOpenFiles).counter = maxOpenFiles - 1
        ∧ ∀ r, (sqliteOpenFn (maxOpenFiles - 1) r).nativeInvoked = true) := by
  refine ⟨?_, ?_, by decide, ?_⟩
  · intro c r hc
    simp only [sqliteOpenFn, if_neg (by omega : ¬c < maxOpenFiles)]
  · intro c r hc
    cases r <;> simp [sqliteOpenFn, if_pos hc]
  · intro r
    cases r <;> simp [sqliteOpenFn, maxOpenFiles]

/-- C2 witness: the admission-control theorem at the cap and just below it. -/
theorem admission_control_witness :
    sqliteOpenFn 100 none = ⟨some .tooManyOpenFiles, 100, false⟩ ∧
      (sqliteOpenFn 99 none).nativeInvoked = true :=
  ⟨admission_control.1 100 none (by decide),
    (admission_control.2.1 99 none (by decide)).1⟩

/-- Helper: an ASCII codepoint is its own UTF-8 first byte. -/
theorem utf8FirstByte_ascii (c : Nat) (h : c < 128) : utf8FirstByte c = c := by
  simp [utf8FirstByte, h]

/-- Helper: a placeholder-free ASCII segment passes through the postgresql
rewrite loop unchanged, leaving the counter where it was. -/
theorem pgReplace_append_clean (s rest : List Nat) (j : Nat)
    (h : ∀ c ∈ s, c < 128 ∧ c ≠ 63) :
    pgReplacePlaceholders (s ++ rest) j = s ++ pgReplacePlaceholders rest j := by
  induction s with
  | nil => simp
  | cons c s ih =>
    have hc := h c (by simp)
    have hs : ∀ x ∈ s, x < 128 ∧ x ≠ 63 := fun x hx => h x (by simp [hx])
    simp only [List.cons_append, pgReplacePlaceholders, if_neg hc.2,
      utf8FirstByte_ascii c hc.1, List.append_eq, ih hs]

/-- Helper: on a text of ASCII placeholder-free segments joined by `?`, the
rewrite loop started at `j` produces the segments joined by `$j`, `$(j+1)`,
…, in order. -/
theorem pgReplace_join (segs : List (List Nat))
    (h : ∀ s ∈ segs, ∀ c ∈ s, c < 128 ∧ c ≠ 63) (j : Nat) :
    pgReplacePlaceholders (joinWithQuestionMarks segs) j
      = joinWithDollarTokens j segs := by
  induction segs generalizing j with
  | nil => simp [joinWithQuestionMarks, joinWithDollarTokens, pgReplacePlaceholders]
  | cons s segs ih =>
    have hs : ∀ c ∈ s, c < 128 ∧ c ≠ 63 := h s (by simp)
    have ht : ∀ x ∈ segs, ∀ c ∈ x, c < 128 ∧ c ≠ 63 :=
      fun x hx => h x (by simp [hx])
    cases segs with
    | nil =>
      have h0 := pgReplace_append_clean s [] j hs
      simpa [joinWithQuestionMarks, joinWithDollarTokens,
        pgReplacePlaceholders] using h0
    | cons s2 ss =>
      show pgReplacePlaceholders (s ++ 63 :: joinWithQuestionMarks (s2 :: ss)) j
        = s ++ (36 :: itoaDigits j) ++ joinWithDollarTokens (j + 1) (s2 :: ss)
      rw [pgReplace_append_clean s _ j hs]
      simp [pgReplacePlaceholders, ih ht (j + 1), List.append_assoc]

/-- C4 (counterexample): on the compiled text consisting of the single
non-ASCII character U+00E9 and containing zero placeholders, the postgresql
rewrite does not leave the text unchanged: the character is replaced by
codepoint 195, the first byte of its UTF-8 encoding. -/
theorem placeholder_nonascii_counterexample :
    pgCompileAndReplacePlaceholders [233] = [195]
      ∧ ([233] : List Nat).count 63 = 0
      ∧ pgCompileAndReplacePlaceholders [233] ≠ [233] := by decide

/-- C4 (amended): on ASCII compiled text with N generic `?` placeholders —
given as N+1 ASCII placeholder-free segments joined by `?` — the postgresql
dialect produces exactly N parameter tokens in the same left-to-right order,
rewriting the i-th placeholder (1-based) to `$i` and leaving all other
characters unchanged (a non-ASCII character would instead be replaced by the
first byte of its UTF-8 encoding, since the loop rebuilds the text one lead
byte at a time); the sqlite dialect returns the compiled text with all
placeholders untouched. -/
theorem placeholder_rewrite (segs : List (List Nat))
    (h : ∀ s ∈ segs, ∀ c ∈ s, c < 128 ∧ c ≠ 63) :
    pgCompileAndReplacePlaceholders (joinWithQuestionMarks segs)
        = joinWithDollarTokens 1 segs
    ∧ (∀ j, pgReplacePlaceholders (joinWithQuestionMarks segs) j
        = joinWithDollarTokens j segs)
    ∧ sqliteCompileAndReplacePlaceholders (joinWithQuestionMarks segs)
        = joinWithQuestionMarks segs :=
  ⟨pgReplace_join segs h 1, fun j => pgReplace_join segs h j, rfl⟩

/-- C4 witness: the rewrite theorem on the two-segment text `S?T`. -/
theorem placeholder_rewrite_witness :
    pgCompileAndReplacePlaceholders (joinWithQuestionMarks [[83], [84]])
      = joinWithDollarTokens 1 [[83], [84]] :=
  (placeholder_rewrite [[83], [84]] (by decide)).1

/-- C6: both dialects' `Err` map their backend-specific connection-exhaustion
conditions — the sqlite `errTooManyOpenFiles` value, and any postgresql error
text containing "too many clients" or "remaining connection slots are
reserved" — to the single shared kind `db.ErrTooManyClients`, and return
every other error, nil included, unchanged. -/
theorem err_translation :
    sqliteErrFn none = .ok ∧ pgErrFn none = .ok
    ∧ sqliteErrFn (some .sentinelTooManyOpenFiles) = .tooManyClients
    ∧ (∀ e, e ≠ .sentinelTooManyOpenFiles →
        sqliteErrFn (some e) = .passthrough e)
    ∧ (∀ e, (strContains e.message "too many clients"
          || strContains e.message "remaining connection slots are reserved")
          = true → pgErrFn (some e) = .tooManyClients)
    ∧ (∀ e, (strContains e.message "too many clients"
          || strContains e.message "remaining connection slots are reserved")
          = false → pgErrFn (some e) = .passthrough e) := by
  refine ⟨rfl, rfl, rfl, ?_, ?_, ?_⟩
  · intro e he
    simp [sqliteErrFn, he]
  · intro e he
    simp [pgErrFn, he]
  · intro e he
    simp [pgErrFn, he]

/-- C6 witness: the translation theorem applied to a pass-through sqlite
error and to a postgresql too-many-clients error text. -/
theorem err_translation_witness :
    sqliteErrFn (some (.mk "disk error")) = .passthrough (.mk "disk error")
      ∧ pgErrFn (some (.mk "pq: sorry, too many clients already"))
          = .tooManyClients :=
  ⟨err_translation.2.2.2.1 (.mk "disk error") (by decide),
    err_translation.2.2.2.2.1 (.mk "pq: sorry, too many clients already")
      (by decide)⟩

/-- Helper: the running maximum in the sqlite discovery pass is positive as
soon as some row has a positive pk ordinal (or the accumulator already is). -/
theorem pkFold_pos (cols : List ColumnSchemaT) (m : Int)
    (h : (∃ c ∈ cols, 0 < c.pk) ∨ 0 < m) :
    0 < cols.foldl (fun m c => if c.pk > 0 ∧ c.pk > m then c.pk else m) m := by
  induction cols generalizing m with
  | nil => simpa using h.resolve_left (by simp)
  | cons c cs ih =>
    rw [List.foldl_cons]
    apply ih
    rcases h with hex | hm
    · rcases hex with ⟨c0, hc0, hpk⟩
      rcases List.mem_cons.mp hc0 with rfl | hmem
      · right
        split
        · next hcond => exact hcond.1
        · next hcond => omega
      · exact Or.inl ⟨c0, hmem, hpk⟩
    · right
      split
      · next hcond => exact hcond.1
      · exact hm

/-- C3 (counterexample): for the table `CREATE TABLE t (b …, a …, PRIMARY KEY
(a, b))` the pragma rows are `b` with ordinal 2 then `a` with ordinal 1; the
sqlite dialect returns ["b", "a"] — pragma row order — while ordering by the
pk ordinal, as the claim states, would give ["a", "b"]. -/
theorem pk_ordering_counterexample :
    sqliteDiscoverPk [⟨"b", 2⟩, ⟨"a", 1⟩] = ["b", "a"]
      ∧ sqlitePkByOrdinalSpec [⟨"b", 2⟩, ⟨"a", 1⟩] = ["a", "b"]
      ∧ sqliteDiscoverPk [⟨"b", 2⟩, ⟨"a", 1⟩]
          ≠ sqlitePkByOrdinalSpec [⟨"b", 2⟩, ⟨"a", 1⟩] := by decide

/-- C3 (amended): both discoveries are pure functions of the catalog data, so
the order is deterministic and stable across repeated discovery; the sqlite
dialect returns the key columns in the pragma's row order (column-definition
order), not sorted by pk ordinal, while the postgresql dialect returns the
key columns ordered lexicographically by column name. -/
theorem pk_ordering (cols : List ColumnSchemaT) (names : List String)
    (h : ∃ c ∈ cols, 0 < c.pk) :
    sqliteDiscoverPk cols
        = (cols.filter (fun c => decide (c.pk > 0))).map (·.name)
      ∧ (pgDiscoverPk names).Sorted (· ≤ ·)
      ∧ (pgDiscoverPk names).Perm names := by
  refine ⟨?_, List.sorted_insertionSort _ names, List.perm_insertionSort _ names⟩
  simp only [sqliteDiscoverPk]
  rw [if_pos]
  exact pkFold_pos cols (-1) (Or.inl h)

/-- C3 witness: the ordering theorem on a one-key-column pragma answer and a
two-name catalog answer. -/
theorem pk_ordering_witness :
    sqliteDiscoverPk [⟨"id", 1⟩]
      = (([⟨"id", 1⟩] : List ColumnSchemaT).filter
          (fun c => decide (c.pk > 0))).map (·.name) :=
  (pk_ordering [⟨"id", 1⟩] ["b", "a"] (by decide)).1

/-- C5: from any starting cache state, calling `TablePrimaryKey` twice
returns identical column lists and the second call never issues the catalog
discovery query; after any first call the cache is non-nil, and a discovery
that finds no key columns is cached as the explicit empty slice `some []`,
distinct from the undiscovered `none` state. -/
theorem pk_cache (cache : Option (List String))
    (rows : List ColumnSchemaT) (names : List String) :
    ((sqliteTablePrimaryKey (sqliteTablePrimaryKey cache rows).cache rows).pk
        = (sqliteTablePrimaryKey cache rows).pk
      ∧ (sqliteTablePrimaryKey
          (sqliteTablePrimaryKey cache rows).cache rows).queried = false
      ∧ (sqliteTablePrimaryKey cache rows).cache ≠ none)
    ∧ ((pgTablePrimaryKey (pgTablePrimaryKey cache names).cache names).pk
        = (pgTablePrimaryKey cache names).pk
      ∧ (pgTablePrimaryKey
          (pgTablePrimaryKey cache names).cache names).queried = false
      ∧ (pgTablePrimaryKey cache names).cache ≠ none)
    ∧ (sqliteTablePrimaryKey none [] = ⟨[], some [], true⟩
      ∧ pgTablePrimaryKey none [] = ⟨[], some [], true⟩) := by
  refine ⟨?_, ?_, by decide, by decide⟩ <;>
    cases cache <;>
      simp [sqliteTablePrimaryKey, pgTablePrimaryKey]

/-- C7: the postgresql filter keeps only public-schema rows, so
system-schema tables (pg_catalog, information_schema) are excluded; but the
sqlite filter `type = 'table'` does not exclude sqlite-internal tables — on
a catalog holding the internal `sqlite_sequence` table (present with type
'table' in any database using AUTOINCREMENT) the query returns it alongside
the user table, although `Collections` is documented to return non-system
tables only. -/
theorem collections_internal_table_leak :
    sqliteCollections [⟨"table", "users"⟩, ⟨"index", "users_idx"⟩,
        ⟨"table", "sqlite_sequence"⟩] = ["users", "sqlite_sequence"]
      ∧ pgCollections [⟨"db", "public", "users"⟩,
          ⟨"db", "pg_catalog", "pg_class"⟩,
          ⟨"db", "information_schema", "tables"⟩] = ["users"] := by decide

/-- C8: evaluation of `TableExists` on its error paths. On a successful
query both dialects match by exact name (a present table yields nil; a name
that is only a substring of a catalog entry yields the distinguished
not-found error) and a `Scan` failure is propagated unchanged — but when the
catalog query itself fails (the iterator delivers no rows and `iter.Err()`
is never checked), both dialects return `db.ErrCollectionDoesNotExist` even
though the queried table is present in the catalog: the I/O failure is
conflated with the not-found condition, contrary to the claim. -/
theorem table_exists_error_paths :
    sqliteTableExists [⟨"table", "users"⟩] "users" true none
        = .collectionDoesNotExist
      ∧ pgTableExists [⟨"db", "public", "users"⟩] "db" "users" true none
          = .collectionDoesNotExist
      ∧ sqliteTableExists [⟨"table", "users"⟩] "users" false none = .ok
      ∧ pgTableExists [⟨"db", "public", "users"⟩] "db" "users" false none
          = .ok
      ∧ sqliteTableExists [⟨"table", "users_archive"⟩] "users" false none
          = .collectionDoesNotExist
      ∧ pgTableExists [⟨"db", "public", "users_archive"⟩] "db" "users"
          false none = .collectionDoesNotExist
      ∧ sqliteTableExists [⟨"table", "users"⟩] "users" false
          (some "scan failed") = .scanError "scan failed"
      ∧ pgTableExists [⟨"db", "public", "users"⟩] "db" "users" false
          (some "scan failed") = .scanError "scan failed" := by decide

/-- Helper: a heap entry with a different identity is transparent to lookup. -/
theorem lookupAd_cons_ne (i j : Nat) (s : AdapterState)
    (rest : List (Nat × AdapterState)) (hne : i ≠ j) :
    lookupAd ((i, s) :: rest) j = lookupAd rest j := by
  simp [lookupAd, hne]

/-- Helper: lookup at the identity of a front entry. -/
theorem lookupAd_cons_self (i : Nat) (s : AdapterState)
    (rest : List (Nat × AdapterState)) :
    lookupAd ((i, s) :: rest) i = some s := by
  simp [lookupAd]

/-- Helper: updating one adapter does not change what lookup sees at any
other identity. -/
theorem lookupAd_updateAd_ne (h : List (Nat × AdapterState)) (i j : Nat)
    (s : AdapterState) (hne : i ≠ j) :
    lookupAd (updateAd h i s) j = lookupAd h j := by
  induction h with
  | nil => rfl
  | cons p rest ih =>
    by_cases hp : p.1 = i
    · have hj : p.1 ≠ j := by rw [hp]; exact hne
      simp [updateAd, lookupAd, hp, hne, hj, ih]
    · by_cases hj : p.1 = j
      · simp [updateAd, lookupAd, hp, hj, Ne.symm hne]
      · simp [updateAd, lookupAd, hp, hj, ih]

/-- Helper: updating the identity of the front entry rewrites that entry in
place. -/
theorem updateAd_cons_self (i : Nat) (s0 s : AdapterState)
    (rest : List (Nat × AdapterState)) :
    updateAd ((i, s0) :: rest) i s = (i, s) :: updateAd rest i s := by
  simp [updateAd]

/-- Helper: the sqlite open procedure satisfies the frame contract. -/
theorem sqliteOpenOn_frames : OpenOnFrames sqliteOpenOn := by
  intro w aid b
  constructor
  · intro w2 hok
    unfold sqliteOpenOn at hok
    split at hok
    · split at hok
      · rw [Except.ok.injEq] at hok
        subst hok
        exact ⟨rfl, rfl, rfl⟩
      · exact absurd hok (by simp)
    · exact absurd hok (by simp)
  · intro e w2 herr
    unfold sqliteOpenOn at herr
    split at herr
    · split at herr
      · exact absurd herr (by simp)
      · simp only [Except.error.injEq, Prod.mk.injEq] at herr
        exact herr.2.symm
    · simp only [Except.error.injEq, Prod.mk.injEq] at herr
      exact herr.2.symm

/-- Helper: the postgresql open procedure satisfies the frame contract. -/
theorem pgOpenOn_frames : OpenOnFrames pgOpenOn := by
  intro w aid b
  constructor
  · intro w2 hok
    unfold pgOpenOn at hok
    split at hok
    · rw [Except.ok.injEq] at hok
      subst hok
      exact ⟨rfl, rfl, rfl⟩
    · exact absurd hok (by simp)
  · intro e w2 herr
    unfold pgOpenOn at herr
    split at herr
    · exact absurd herr (by simp)
    · simp only [Except.error.injEq, Prod.mk.injEq] at herr
      exact herr.2.symm

/-- Helper: for any open procedure satisfying the frame contract, the
transaction step returns a fresh clone distinct from `d`, binds the fresh
session and transaction handles to the clone only, and leaves `d`'s heap
state unchanged on success and on failure alike. -/
theorem transactionOn_frame
    (openOn : TxWorld → Nat → Bool → Except (TxErr × TxWorld) TxWorld)
    (hF : OpenOnFrames openOn) (w : TxWorld) (d : Nat) (nOk bOk : Bool)
    (hd : d < w.nextId) :
    (∀ w2 cid, transactionOn openOn w d nOk bOk = .ok (w2, cid) →
        cid ≠ d ∧ lookupAd w2.heap d = lookupAd w.heap d ∧
        lookupAd w2.heap cid
          = some ⟨some w.nextHandle, some (w.nextHandle + 1)⟩)
    ∧ (∀ e w2, transactionOn openOn w d nOk bOk = .error (e, w2) →
        lookupAd w2.heap d = lookupAd w.heap d) := by
  have hcd : w.nextId ≠ d := Nat.ne_of_gt hd
  cases hcl : openOn
      ⟨(w.nextId, ⟨none, none⟩) :: w.heap, w.nextId + 1, w.nextHandle,
        w.count⟩ w.nextId nOk with
  | error ew =>
    obtain ⟨e0, wE⟩ := ew
    have hwE := (hF _ _ _).2 e0 wE hcl
    have hclone : cloneOn openOn w nOk = .error (e0, wE) := by
      simp only [cloneOn]
      rw [hcl]
    have hstep : transactionOn openOn w d nOk bOk = .error (e0, wE) := by
      unfold transactionOn
      rw [hclone]
    constructor
    · intro w2 cid hok
      rw [hstep] at hok
      exact absurd hok (by simp)
    · intro e w2 herr
      rw [hstep] at herr
      simp only [Except.error.injEq, Prod.mk.injEq] at herr
      rw [← herr.2, hwE]
      exact lookupAd_cons_ne _ _ _ _ hcd
  | ok w2' =>
    obtain ⟨hheap, hnid, hnh⟩ := (hF _ _ _).1 w2' hcl
    dsimp only at hheap hnid hnh
    rw [updateAd_cons_self] at hheap
    have hclone : cloneOn openOn w nOk = .ok (w2', w.nextId) := by
      simp only [cloneOn]
      rw [hcl]
    cases bOk with
    | false =>
      have hstep : transactionOn openOn w d nOk false
          = .error (.beginFailed, w2') := by
        unfold transactionOn
        rw [hclone]
        rfl
      constructor
      · intro w2 cid hok
        rw [hstep] at hok
        exact absurd hok (by simp)
      · intro e w2 herr
        rw [hstep] at herr
        simp only [Except.error.injEq, Prod.mk.injEq] at herr
        rw [← herr.2, hheap, lookupAd_cons_ne _ _ _ _ hcd,
          lookupAd_updateAd_ne _ _ _ _ hcd]
    | true =>
      have hlook : lookupAd w2'.heap w.nextId
          = some ⟨some w.nextHandle, none⟩ := by
        rw [hheap]
        exact lookupAd_cons_self _ _ _
      have hbind : bindTxTo w2' w.nextId
          = ⟨updateAd w2'.heap w.nextId
                ⟨some w.nextHandle, some w2'.nextHandle⟩,
              w2'.nextId, w2'.nextHandle + 1, w2'.count⟩ := by
        unfold bindTxTo
        rw [hlook]
      have hstep : transactionOn openOn w d nOk true
          = .ok (bindTxTo w2' w.nextId, w.nextId) := by
        unfold transactionOn
        rw [hclone]
        rfl
      constructor
      · intro w2 cid hok
        rw [hstep, hbind] at hok
        simp only [Except.ok.injEq, Prod.mk.injEq] at hok
        obtain ⟨hw2, hcid⟩ := hok
        subst hcid
        refine ⟨hcd, ?_, ?_⟩
        · rw [← hw2]
          dsimp only
          rw [lookupAd_updateAd_ne _ _ _ _ hcd, hheap,
            lookupAd_cons_ne _ _ _ _ hcd,
            lookupAd_updateAd_ne _ _ _ _ hcd]
        · rw [← hw2]
          dsimp only
          rw [hheap, updateAd_cons_self, lookupAd_cons_self, hnh]
      · intro e w2 herr
        rw [hstep] at herr
        exact absurd herr (by simp)

/-- C10: the postgresql `Open` rejects a nil connection descriptor with
`db.ErrMissingConnURL` without attempting the native open, while the sqlite
`Open` performs no nil-descriptor check at all: its behaviour is identical on
a nil and on a non-nil descriptor, and with a nil descriptor it still
proceeds to the native open. -/
theorem nil_descriptor_handling :
    (∀ r, pgOpen none r = ⟨some .missingConnURL, false⟩)
    ∧ (∀ u c r, sqliteOpen none c r = sqliteOpen (some u) c r)
    ∧ (sqliteOpen none 0 none).nativeAttempted = true := by
  exact ⟨fun r => rfl, fun u c r => rfl, by decide⟩

/-- C9: `Transaction()` operates only on a fresh clone: in both dialects, on
success it returns a clone distinct from the adapter `d` it was called on,
with a freshly opened session of its own and the new transactional handle
bound to the clone, while `d`'s heap state — live handle and
bound-transaction state — is unchanged; on failure (guard denial, native
open failure, or `Begin` failure) `d`'s heap state is unchanged as well. -/
theorem transaction_frame (w : TxWorld) (d : Nat) (nOk bOk : Bool)
    (hd : d < w.nextId) :
    ((∀ w2 cid, sqliteTransaction w d nOk bOk = .ok (w2, cid) →
        cid ≠ d ∧ lookupAd w2.heap d = lookupAd w.heap d ∧
        lookupAd w2.heap cid
          = some ⟨some w.nextHandle, some (w.nextHandle + 1)⟩)
      ∧ (∀ e w2, sqliteTransaction w d nOk bOk = .error (e, w2) →
          lookupAd w2.heap d = lookupAd w.heap d))
    ∧ ((∀ w2 cid, pgTransaction w d nOk bOk = .ok (w2, cid) →
        cid ≠ d ∧ lookupAd w2.heap d = lookupAd w.heap d ∧
        lookupAd w2.heap cid
          = some ⟨some w.nextHandle, some (w.nextHandle + 1)⟩)
      ∧ (∀ e w2, pgTransaction w d nOk bOk = .error (e, w2) →
          lookupAd w2.heap d = lookupAd w.heap d)) :=
  ⟨transactionOn_frame sqliteOpenOn sqliteOpenOn_frames w d nOk bOk hd,
    transactionOn_frame pgOpenOn pgOpenOn_frames w d nOk bOk hd⟩

/-- C9 witness: the frame theorem at a concrete world holding one open
adapter (identity 0, session handle 5), whose transaction step succeeds and
yields the clone with identity 1, session 6 and transaction handle 7. -/
theorem transaction_frame_witness :
    (1 : Nat) ≠ 0
      ∧ lookupAd [(1, ⟨some 6, some 7⟩), (0, ⟨some 5, none⟩)] 0
          = lookupAd [(0, ⟨some 5, none⟩)] 0
      ∧ lookupAd [(1, ⟨some 6, some 7⟩), (0, ⟨some 5, none⟩)] 1
          = some ⟨some 6, some 7⟩ :=
  (transaction_frame ⟨[(0, ⟨some 5, none⟩)], 1, 6, 1⟩ 0 true true
      (by decide)).1.1
    ⟨[(1, ⟨some 6, some 7⟩), (0, ⟨some 5, none⟩)], 2, 8, 2⟩ 1 (by rfl)

